import Mathlib

/-!
Shallow embedding of the L'Oréal chatbot client (`script.js`, final revision).

The program is a browser chat widget: a module-level `messages` array seeded
with one system message, an async `getChatCompletion(convMessages)` that POSTs
`{ model: "gpt-4o", messages }` to a Cloudflare Worker URL and extracts
`data?.choices?.[0]?.message?.content` from the JSON response, and an async
`handleSend(event)` that trims the input, appends the user message, shows a
typing indicator, awaits the completion call, and reconciles success/failure.

Modelling conventions:
- JavaScript dynamic values appearing in responses are modelled by the `Json`
  inductive (numbers as integers; float-specific values such as NaN are not
  needed by any code path modelled here).
- `jsTrim` models `String.prototype.trim` (strip leading/trailing
  whitespace; the exact whitespace character class differs only on exotic
  Unicode spaces, which no claim concerns).
- The DOM chat window is a list of elements; `addMessage` appends one bubble
  element carrying its role class, its label text, and its content, exactly as
  the source builds a div with a label span and a text span.  Scrolling and
  the transient appear-animation class mutate no state a claim mentions.
- The `fetch` call is modelled by a `FetchOutcome`: either a transport error
  (the promise rejects) or an HTTP response carrying a status, the plain body
  text read by `resp.text()`, and the result of `resp.json()` (which may fail
  to parse).  Per the fetch specification, `resp.ok` is `200 ≤ status ≤ 299`.
- The session is a state machine: UI events (typing into the input, clicking
  the send button, pressing Enter) and settlement of a pending call are the
  transitions.  A pending call records the outbound request built when the
  cycle started (JSON.stringify runs synchronously before the first await).
-/

/-- `String.prototype.trim`: strip leading and trailing whitespace.  Defined
structurally over the character list so concrete inputs evaluate. -/
def jsTrim (s : String) : String :=
  String.mk (((s.data.dropWhile Char.isWhitespace).reverse.dropWhile
    Char.isWhitespace).reverse)

/-- JavaScript/JSON value, as produced by `resp.json()`. -/
inductive Json where
  | null : Json
  | bool (b : Bool) : Json
  | num (n : Int) : Json
  | str (s : String) : Json
  | arr (elems : List Json) : Json
  | obj (fields : List (String × Json)) : Json

/-- JavaScript truthiness test on a value (`!v` is `falsy v`):
`undefined`/`null`, `false`, `0`, and `""` are falsy; arrays and objects are
always truthy. -/
def Json.falsy : Json → Bool
  | .null => true
  | .bool b => !b
  | .num n => n == 0
  | .str s => s == ""
  | .arr _ => false
  | .obj _ => false

/-- Optional-chained property access `v?.k`: a field of an object (first
binding wins, as after `JSON.parse`), `undefined` (`none`) on anything else. -/
def Json.get? : Json → String → Option Json
  | .obj fields, k => List.lookup k fields
  | _, _ => none

/-- Optional-chained index access `v?.[0]`: first array element, the field
named `"0"` of an object, the first character of a string, otherwise
`undefined`. -/
def Json.idx0 : Json → Option Json
  | .arr elems => elems.head?
  | .obj fields => List.lookup "0" fields
  | .str s =>
    match s.data with
    | [] => none
    | c :: _ => some (.str (String.mk [c]))
  | _ => none

/-- `undefined`-aware truthiness: `!x` where `x` may be `undefined`. -/
def jsFalsy : Option Json → Bool
  | none => true
  | some v => v.falsy

/-- `data?.choices?.[0]?.message?.content` (line 92 of the source). -/
def extractAssistantContent (data : Json) : Option Json :=
  ((data.get? "choices").bind Json.idx0).bind
    (fun m => (m.get? "message").bind (fun m2 => m2.get? "content"))

/-- Message role; the source only ever uses the three string literals
`"system"`, `"user"` and `"assistant"`. -/
inductive Role where
  | system : Role
  | user : Role
  | assistant : Role
deriving DecidableEq

/-- One transcript entry `{ role, content }`. -/
structure Message where
  role : Role
  content : Json

/-- The seed system instruction (lines 18–25 of the source). -/
def systemPrompt : String :=
  "You are a helpful assistant specialized in L’Oréal products, skincare and beauty routines, and related recommendations. Politely refuse to answer questions that are unrelated to L’Oréal products, beauty, skincare, cosmetics, haircare, or routine recommendations. When refusing, respond briefly and offer to help with L’Oréal-specific or beauty-related questions instead."

/-- The seed system message. -/
def seedMessage : Message :=
  { role := Role.system, content := Json.str systemPrompt }

/-- Initial value of the module-level `messages` array. -/
def initialMessages : List Message := [seedMessage]

/-- The global lookups `window.OPENAI_API_KEY`, `window.API_KEY`,
`window.OPENAI_KEY` that `secrets.js` may or may not have set; an unset
global reads as `undefined` (`none`). -/
structure WindowEnv where
  OPENAI_API_KEY : Option String
  API_KEY : Option String
  OPENAI_KEY : Option String

/-- JavaScript `a || b` specialised to a possibly-undefined string on the
left: the left operand if truthy (defined and non-empty), else the right. -/
def jsOrElse (v : Option String) (fallback : String) : String :=
  match v with
  | some s => if s = "" then fallback else s
  | none => fallback

/-- `const apiKey = window.OPENAI_API_KEY || window.API_KEY || window.OPENAI_KEY || ""`
(lines 28–29 of the source). -/
def apiKey (w : WindowEnv) : String :=
  jsOrElse w.OPENAI_API_KEY (jsOrElse w.API_KEY (jsOrElse w.OPENAI_KEY ""))

/-- The fixed relay endpoint (line 69 of the source). -/
def WORKER_URL : String := "https://loreal-worker.mtrigui.workers.dev/"

/-- The JSON body `{ model, messages }` built at lines 73–76 of the source. -/
structure RequestBody where
  model : String
  messages : List Message

/-- The outbound `fetch` request: URL, method, headers and JSON body
(lines 78–82 of the source). -/
structure Request where
  url : String
  method : String
  headers : List (String × String)
  body : RequestBody

/-- The request `getChatCompletion` issues.  `w` is the module environment in
scope at the call site; the body never reads `apiKey w` — the key is routed
through the worker instead, which claim C9 makes precise. -/
def chatCompletionRequest (_w : WindowEnv) (convMessages : List Message) : Request :=
  { url := WORKER_URL
    method := "POST"
    headers := [("Content-Type", "application/json")]
    body := { model := "gpt-4o", messages := convMessages } }

/-- `resp.ok` per the fetch specification: status in the 2xx range. -/
def respOk (status : Nat) : Bool := 200 ≤ status && status ≤ 299

/-- How the awaited `fetch` settles: the promise rejects (transport error
with the rejection's message), or a response arrives with a status, the body
text that `resp.text()` would read, and the outcome of `resp.json()`. -/
inductive FetchOutcome where
  | transportError (msg : String) : FetchOutcome
  | httpResponse (status : Nat) (bodyText : String)
      (jsonBody : Except String Json) : FetchOutcome

/-- The result-processing part of `getChatCompletion` (lines 84–97 of the
source), as a function of how the fetch settled.  `Except.error m` models a
throw of `new Error(m)` propagating to the caller; `Except.ok c` models
returning the extracted assistant content. -/
def getChatCompletion (outcome : FetchOutcome) : Except String Json :=
  match outcome with
  | .transportError msg => .error msg
  | .httpResponse status bodyText jsonBody =>
    if !respOk status then
      .error ("API request failed: " ++ toString status ++ " " ++ bodyText)
    else
      match jsonBody with
      | .error msg => .error msg
      | .ok data =>
        match extractAssistantContent data with
        | none => .error "No assistant message found in API response."
        | some c =>
          if c.falsy then .error "No assistant message found in API response."
          else .ok c

/-- One element rendered into the `#chatWindow` container: either a chat
bubble built by `addMessage` (its role class `"user"`/`"ai"`, its label span
text and its content span text), or the typing indicator div built inside
`handleSend`, tagged with the identity of the send cycle that created it so
that `typingEl.remove()` removes exactly that node. -/
inductive Elem where
  | bubble (roleClass : String) (label : String) (text : Json) : Elem
  | typing (id : Nat) : Elem

/-- Whether an element is the typing indicator of cycle `i`. -/
def isTypingOf (i : Nat) : Elem → Bool
  | .typing j => j == i
  | .bubble _ _ _ => false

/-- `addMessage(role, text)` (lines 33–63 of the source): appends one bubble
whose role class and label depend on whether `role === "user"`. -/
def addMessage (window : List Elem) (role : String) (text : Json) : List Elem :=
  window ++ [Elem.bubble (if role = "user" then "user" else "ai")
    (if role = "user" then "User: " else "Assistant: ") text]

/-- An outstanding completion call: the send cycle that issued it and the
request already serialized and sent. -/
structure PendingCall where
  id : Nat
  request : Request

/-- The observable session state: the `messages` array, the input field's
value, `sendBtn.disabled`, the children of `#chatWindow`, the outstanding
fetches, a counter supplying fresh identities for typing indicators, and
whether the input has focus. -/
structure SessionState where
  messages : List Message
  inputValue : String
  sendBtnDisabled : Bool
  chatWindow : List Elem
  pending : List PendingCall
  nextId : Nat
  inputFocused : Bool

/-- State after the page script runs: seeded transcript, empty input and chat
window, button enabled (the HTML does not disable it), nothing in flight. -/
def initialState : SessionState :=
  { messages := initialMessages
    inputValue := ""
    sendBtnDisabled := false
    chatWindow := []
    pending := []
    nextId := 0
    inputFocused := false }

/-- The synchronous prefix of `handleSend` (lines 104–130 of the source), up
to the suspension point `await getChatCompletion(messages)`: trim the input
and return unchanged if the result is empty; otherwise render the user
bubble, push the user message, clear the input, disable the send button,
append the typing indicator, and issue the fetch (whose request body is the
serialization of the `messages` array at this instant). -/
def sendPhase1 (w : WindowEnv) (s : SessionState) : SessionState :=
  let text := jsTrim s.inputValue
  if text = "" then s
  else
    { messages := s.messages ++ [{ role := Role.user, content := Json.str text }]
      inputValue := ""
      sendBtnDisabled := true
      chatWindow := addMessage s.chatWindow "user" (Json.str text) ++ [Elem.typing s.nextId]
      pending := s.pending ++
        [{ id := s.nextId
           request := chatCompletionRequest w
             (s.messages ++ [{ role := Role.user, content := Json.str text }]) }]
      nextId := s.nextId + 1
      inputFocused := s.inputFocused }

/-- The continuation of `handleSend` after the awaited call of cycle `i`
settles with `outcome` (lines 129–145 of the source): remove that cycle's
typing indicator; on success render the assistant reply and push it onto
`messages`, on failure render an `Error: …` bubble and push nothing; in both
cases (the `finally` block) re-enable the send button and focus the input. -/
def settleCall (s : SessionState) (i : Nat) (outcome : FetchOutcome) : SessionState :=
  let window := s.chatWindow.filter (fun e => !isTypingOf i e)
  let remaining := s.pending.filter (fun c => !(c.id == i))
  match getChatCompletion outcome with
  | .ok reply =>
    { s with
      chatWindow := addMessage window "assistant" reply
      messages := s.messages ++ [{ role := Role.assistant, content := reply }]
      pending := remaining
      sendBtnDisabled := false
      inputFocused := true }
  | .error msg =>
    { s with
      chatWindow := addMessage window "assistant" (Json.str ("Error: " ++ msg))
      pending := remaining
      sendBtnDisabled := false
      inputFocused := true }

/-- A whole `handleSend` cycle run to completion with no interleaved events:
the synchronous prefix, then — unless the trimmed input was empty, in which
case the function returned at line 107 — the settlement of the call this
cycle issued. -/
def handleSend (w : WindowEnv) (s : SessionState) (outcome : FetchOutcome) : SessionState :=
  if jsTrim s.inputValue = "" then s
  else settleCall (sendPhase1 w s) s.nextId outcome

/-- An event the single-threaded host can dispatch: the user edits the input
field, clicks the send button (possible only while it is enabled), presses
Enter in the input without Shift (the keydown listener at lines 155–162
calls `handleSend()` unconditionally), or an outstanding fetch settles. -/
inductive Event where
  | setInput (v : String) : Event
  | clickSend : Event
  | pressEnter : Event
  | settle (i : Nat) (outcome : FetchOutcome) : Event

/-- One transition of the session: `none` means the event cannot occur in
this state (clicking a disabled button, settling a call that is not
outstanding). -/
def step (w : WindowEnv) (s : SessionState) : Event → Option SessionState
  | .setInput v => some { s with inputValue := v }
  | .clickSend => if s.sendBtnDisabled then none else some (sendPhase1 w s)
  | .pressEnter => some (sendPhase1 w s)
  | .settle i outcome =>
    if s.pending.any (fun c => c.id == i) then some (settleCall s i outcome) else none

/-- States reachable from page load. -/
inductive Reachable (w : WindowEnv) : SessionState → Prop where
  | init : Reachable w initialState
  | tr : ∀ {s e s'}, Reachable w s → step w s e = some s' → Reachable w s'

/-- Run a sequence of events from a state; `none` if any event is impossible. -/
def run (w : WindowEnv) (s : SessionState) : List Event → Option SessionState
  | [] => some s
  | e :: es =>
    match step w s e with
    | some s' => run w s' es
    | none => none

/-- A window environment in which `secrets.js` set no key. -/
def emptyEnv : WindowEnv := { OPENAI_API_KEY := none, API_KEY := none, OPENAI_KEY := none }

/-- `t` occurs as a contiguous substring of `s`. -/
def ContainsSubstr (s t : String) : Prop := ∃ a b, s = a ++ t ++ b

/-- A session state differing from the initial one only in the input field. -/
def stateWithInput (v : String) : SessionState :=
  { initialState with inputValue := v }

/-- A concrete 200 response whose JSON is
`{ choices: [ { message: { content: c } } ] }`. -/
def okResponseWith (c : String) : FetchOutcome :=
  FetchOutcome.httpResponse 200 ""
    (Except.ok (Json.obj [("choices",
      Json.arr [Json.obj [("message", Json.obj [("content", Json.str c)])]])]))

/-- Event sequence: type `"hi"`, press Enter, type `"again"` while the first
call is still outstanding, press Enter again. -/
def doubleSendTrace : List Event :=
  [Event.setInput "hi", Event.pressEnter, Event.setInput "again", Event.pressEnter]

/-- Number of outstanding completion calls after running a trace from page
load (with no key configured); `none` if the trace is impossible. -/
def pendingCountAfter (es : List Event) : Option Nat :=
  (run emptyEnv initialState es).map (fun s => s.pending.length)

/-- The last element of a window that just had a bubble appended. -/
theorem getLast?_append_singleton (l : List Elem) (e : Elem) :
    (l ++ [e]).getLast? = some e := by
  rw [List.getLast?_concat]

/-- Claim C6: for every input whose trimmed text is empty, `handleSend` is a
no-op — the state (transcript, UI, outstanding calls) is returned unchanged
and no fetch is issued. -/
theorem c6_empty_input_noop (w : WindowEnv) (s : SessionState) (outcome : FetchOutcome)
    (h : jsTrim s.inputValue = "") :
    sendPhase1 w s = s ∧ handleSend w s outcome = s := by
  constructor
  · simp [sendPhase1, h]
  · simp [handleSend, h]

/-- Witness for C6 at the whitespace-only input `"   "`. -/
theorem c6_empty_input_noop_witness :
    jsTrim (stateWithInput "   ").inputValue = "" ∧
    (sendPhase1 emptyEnv (stateWithInput "   ") = stateWithInput "   " ∧
     handleSend emptyEnv (stateWithInput "   ") (FetchOutcome.transportError "boom")
       = stateWithInput "   ") :=
  ⟨by decide, c6_empty_input_noop emptyEnv (stateWithInput "   ")
    (FetchOutcome.transportError "boom") (by decide)⟩

/-- Claim C1: for a non-empty trimmed input, the synchronous prefix appends
exactly one user message carrying the trimmed text, and if the completion
call succeeds the settled cycle has appended exactly the user message
followed by one assistant message carrying the extracted reply — nothing
else. -/
theorem c1_appends_user_then_assistant (w : WindowEnv) (s : SessionState)
    (outcome : FetchOutcome) (reply : Json)
    (h : jsTrim s.inputValue ≠ "")
    (hok : getChatCompletion outcome = Except.ok reply) :
    (sendPhase1 w s).messages
      = s.messages ++ [{ role := Role.user, content := Json.str (jsTrim s.inputValue) }] ∧
    (handleSend w s outcome).messages
      = s.messages ++ [{ role := Role.user, content := Json.str (jsTrim s.inputValue) },
                       { role := Role.assistant, content := reply }] := by
  constructor
  · simp [sendPhase1, h]
  · simp [handleSend, h, settleCall, sendPhase1, hok]

/-- Witness for C1: input `"hi"`, successful call replying `"hello"`. -/
theorem c1_appends_user_then_assistant_witness :
    jsTrim (stateWithInput "hi").inputValue ≠ "" ∧
    getChatCompletion (okResponseWith "hello") = Except.ok (Json.str "hello") ∧
    ((sendPhase1 emptyEnv (stateWithInput "hi")).messages
      = (stateWithInput "hi").messages ++
        [{ role := Role.user, content := Json.str (jsTrim (stateWithInput "hi").inputValue) }] ∧
     (handleSend emptyEnv (stateWithInput "hi") (okResponseWith "hello")).messages
      = (stateWithInput "hi").messages ++
        [{ role := Role.user, content := Json.str (jsTrim (stateWithInput "hi").inputValue) },
         { role := Role.assistant, content := Json.str "hello" }]) :=
  ⟨by decide, rfl,
   c1_appends_user_then_assistant emptyEnv (stateWithInput "hi")
     (okResponseWith "hello") (Json.str "hello") (by decide) rfl⟩

/-- Claim C3: when the completion call fails, the settled cycle's transcript
equals the transcript immediately before the call (the user message is
retained, no assistant or error entry is added), while a visible error bubble
is rendered as the last element of the chat window. -/
theorem c3_failure_adds_nothing (w : WindowEnv) (s : SessionState)
    (outcome : FetchOutcome) (msg : String)
    (h : jsTrim s.inputValue ≠ "")
    (herr : getChatCompletion outcome = Except.error msg) :
    (handleSend w s outcome).messages = (sendPhase1 w s).messages ∧
    (sendPhase1 w s).messages
      = s.messages ++ [{ role := Role.user, content := Json.str (jsTrim s.inputValue) }] ∧
    (handleSend w s outcome).chatWindow.getLast?
      = some (Elem.bubble "ai" "Assistant: " (Json.str ("Error: " ++ msg))) := by
  refine ⟨?_, by simp [sendPhase1, h], ?_⟩
  · simp [handleSend, h, settleCall, herr]
  · simp [handleSend, h, settleCall, herr, addMessage, getLast?_append_singleton]

/-- Witness for C3: input `"hi"`, transport failure `"Failed to fetch"`. -/
theorem c3_failure_adds_nothing_witness :
    jsTrim (stateWithInput "hi").inputValue ≠ "" ∧
    getChatCompletion (FetchOutcome.transportError "Failed to fetch")
      = Except.error "Failed to fetch" ∧
    ((handleSend emptyEnv (stateWithInput "hi") (FetchOutcome.transportError "Failed to fetch")).messages
      = (sendPhase1 emptyEnv (stateWithInput "hi")).messages ∧
     (sendPhase1 emptyEnv (stateWithInput "hi")).messages
      = (stateWithInput "hi").messages ++
        [{ role := Role.user, content := Json.str (jsTrim (stateWithInput "hi").inputValue) }] ∧
     (handleSend emptyEnv (stateWithInput "hi") (FetchOutcome.transportError "Failed to fetch")).chatWindow.getLast?
      = some (Elem.bubble "ai" "Assistant: " (Json.str ("Error: " ++ "Failed to fetch")))) :=
  ⟨by decide, rfl,
   c3_failure_adds_nothing emptyEnv (stateWithInput "hi")
     (FetchOutcome.transportError "Failed to fetch") "Failed to fetch" (by decide) rfl⟩

/-- After settlement of cycle `i`, that cycle's typing indicator is gone from
the window, on both the success and the failure branch. -/
theorem settleRemovesTyping (s : SessionState) (i : Nat) (outcome : FetchOutcome) :
    ∀ e ∈ (settleCall s i outcome).chatWindow, e ≠ Elem.typing i := by
  intro e he heq
  subst heq
  cases hgc : getChatCompletion outcome <;>
    simp [settleCall, hgc, addMessage, List.mem_filter, isTypingOf] at he

/-- Claim C5: on both exit paths of a non-empty send cycle the cleanup runs —
the typing indicator is in the window while the call is outstanding and
absent after settlement, the send button is re-enabled, the input is
focused, and everything appended to the transcript is a user or assistant
message (the indicator never enters the Transcript Store). -/
theorem c5_cleanup_on_both_paths (w : WindowEnv) (s : SessionState)
    (outcome : FetchOutcome)
    (h : jsTrim s.inputValue ≠ "") :
    Elem.typing s.nextId ∈ (sendPhase1 w s).chatWindow ∧
    (∀ e ∈ (handleSend w s outcome).chatWindow, e ≠ Elem.typing s.nextId) ∧
    (handleSend w s outcome).sendBtnDisabled = false ∧
    (handleSend w s outcome).inputFocused = true ∧
    (∃ t, (handleSend w s outcome).messages = s.messages ++ t ∧
      ∀ m ∈ t, m.role = Role.user ∨ m.role = Role.assistant) := by
  refine ⟨?_, ?_, ?_, ?_, ?_⟩
  · simp [sendPhase1, h, addMessage]
  · intro e he
    rw [handleSend, if_neg h] at he
    exact settleRemovesTyping (sendPhase1 w s) s.nextId outcome e he
  · cases hgc : getChatCompletion outcome <;>
      simp [handleSend, h, settleCall, hgc]
  · cases hgc : getChatCompletion outcome <;>
      simp [handleSend, h, settleCall, hgc]
  · cases hgc : getChatCompletion outcome with
    | error msg =>
      exact ⟨[{ role := Role.user, content := Json.str (jsTrim s.inputValue) }],
        by simp [handleSend, h, settleCall, hgc, sendPhase1],
        by intro m hm; simp at hm; subst hm; exact Or.inl rfl⟩
    | ok reply =>
      refine ⟨[{ role := Role.user, content := Json.str (jsTrim s.inputValue) },
               { role := Role.assistant, content := reply }],
        by simp [handleSend, h, settleCall, hgc, sendPhase1], ?_⟩
      intro m hm
      simp at hm
      rcases hm with hm | hm
      · subst hm; exact Or.inl rfl
      · subst hm; exact Or.inr rfl

/-- Witness for C5: input `"hi"`, transport failure. -/
theorem c5_cleanup_on_both_paths_witness :
    jsTrim (stateWithInput "hi").inputValue ≠ "" ∧
    (Elem.typing (stateWithInput "hi").nextId
        ∈ (sendPhase1 emptyEnv (stateWithInput "hi")).chatWindow ∧
     (∀ e ∈ (handleSend emptyEnv (stateWithInput "hi") (FetchOutcome.transportError "boom")).chatWindow,
        e ≠ Elem.typing (stateWithInput "hi").nextId) ∧
     (handleSend emptyEnv (stateWithInput "hi") (FetchOutcome.transportError "boom")).sendBtnDisabled = false ∧
     (handleSend emptyEnv (stateWithInput "hi") (FetchOutcome.transportError "boom")).inputFocused = true ∧
     (∃ t, (handleSend emptyEnv (stateWithInput "hi") (FetchOutcome.transportError "boom")).messages
        = (stateWithInput "hi").messages ++ t ∧
      ∀ m ∈ t, m.role = Role.user ∨ m.role = Role.assistant)) :=
  ⟨by decide,
   c5_cleanup_on_both_paths emptyEnv (stateWithInput "hi")
     (FetchOutcome.transportError "boom") (by decide)⟩

/-- Claim C9: the outbound request never depends on the client-side `apiKey`
constant — for any two window environments (keys set, unset, or empty) the
request built for a given transcript is identical, and its headers are
exactly the fixed `Content-Type` header (no Authorization, no key). -/
theorem c9_request_independent_of_key (w1 w2 : WindowEnv) (convMessages : List Message) :
    chatCompletionRequest w1 convMessages = chatCompletionRequest w2 convMessages ∧
    (chatCompletionRequest w1 convMessages).headers
      = [("Content-Type", "application/json")] ∧
    (chatCompletionRequest w1 convMessages).url = WORKER_URL :=
  ⟨rfl, rfl, rfl⟩

/-- Claim C7: a non-2xx response with status `S` and body `B` makes
`getChatCompletion` throw `API request failed: S B`; the cycle renders an
error bubble whose text contains both `S` and `B`, and appends no assistant
message to the transcript. -/
theorem c7_http_error_reported (w : WindowEnv) (s : SessionState)
    (status : Nat) (bodyText : String) (jsonBody : Except String Json)
    (h : jsTrim s.inputValue ≠ "")
    (hbad : respOk status = false) :
    getChatCompletion (FetchOutcome.httpResponse status bodyText jsonBody)
      = Except.error ("API request failed: " ++ toString status ++ " " ++ bodyText) ∧
    (handleSend w s (FetchOutcome.httpResponse status bodyText jsonBody)).messages
      = s.messages ++ [{ role := Role.user, content := Json.str (jsTrim s.inputValue) }] ∧
    (handleSend w s (FetchOutcome.httpResponse status bodyText jsonBody)).chatWindow.getLast?
      = some (Elem.bubble "ai" "Assistant: "
          (Json.str ("Error: " ++ ("API request failed: " ++ toString status ++ " " ++ bodyText)))) ∧
    ContainsSubstr ("Error: " ++ ("API request failed: " ++ toString status ++ " " ++ bodyText))
      (toString status) ∧
    ContainsSubstr ("Error: " ++ ("API request failed: " ++ toString status ++ " " ++ bodyText))
      bodyText := by
  have herr : getChatCompletion (FetchOutcome.httpResponse status bodyText jsonBody)
      = Except.error ("API request failed: " ++ toString status ++ " " ++ bodyText) := by
    simp [getChatCompletion, hbad]
  refine ⟨herr, ?_, ?_, ?_, ?_⟩
  · simp [handleSend, h, settleCall, herr, sendPhase1]
  · simp [handleSend, h, settleCall, herr, addMessage, getLast?_append_singleton]
  · refine ⟨"Error: " ++ "API request failed: ", " " ++ bodyText, ?_⟩
    simp only [String.append_assoc]
  · refine ⟨("Error: " ++ "API request failed: ") ++ toString status ++ " ", "", ?_⟩
    simp only [String.append_assoc, String.append_empty]

/-- Witness for C7: input `"hi"`, HTTP 500 with body `"internal error"`. -/
theorem c7_http_error_reported_witness :
    jsTrim (stateWithInput "hi").inputValue ≠ "" ∧
    respOk 500 = false ∧
    (getChatCompletion (FetchOutcome.httpResponse 500 "internal error" (Except.error "parse"))
      = Except.error ("API request failed: " ++ toString 500 ++ " " ++ "internal error") ∧
     (handleSend emptyEnv (stateWithInput "hi")
        (FetchOutcome.httpResponse 500 "internal error" (Except.error "parse"))).messages
      = (stateWithInput "hi").messages ++
        [{ role := Role.user, content := Json.str (jsTrim (stateWithInput "hi").inputValue) }] ∧
     (handleSend emptyEnv (stateWithInput "hi")
        (FetchOutcome.httpResponse 500 "internal error" (Except.error "parse"))).chatWindow.getLast?
      = some (Elem.bubble "ai" "Assistant: "
          (Json.str ("Error: " ++ ("API request failed: " ++ toString 500 ++ " " ++ "internal error")))) ∧
     ContainsSubstr ("Error: " ++ ("API request failed: " ++ toString 500 ++ " " ++ "internal error"))
       (toString 500) ∧
     ContainsSubstr ("Error: " ++ ("API request failed: " ++ toString 500 ++ " " ++ "internal error"))
       "internal error") :=
  ⟨by decide, by decide,
   c7_http_error_reported emptyEnv (stateWithInput "hi") 500 "internal error"
     (Except.error "parse") (by decide) (by decide)⟩

/-- Claim C8: a non-empty send cycle issues exactly one outbound call, a POST
to the worker URL with the JSON-only header and body
`{ model: "gpt-4o", messages: <the transcript snapshot including the
just-appended user turn> }`; on a 2xx response the reply is exactly the value
read from `choices[0].message.content` when that value is truthy. -/
theorem c8_request_carries_snapshot (w : WindowEnv) (s : SessionState)
    (status : Nat) (bodyText : String) (data c : Json)
    (h : jsTrim s.inputValue ≠ "")
    (hok : respOk status = true)
    (hc : extractAssistantContent data = some c)
    (htruthy : c.falsy = false) :
    (sendPhase1 w s).pending = s.pending ++
      [{ id := s.nextId
         request :=
          { url := WORKER_URL
            method := "POST"
            headers := [("Content-Type", "application/json")]
            body := { model := "gpt-4o"
                      messages := s.messages ++
                        [{ role := Role.user, content := Json.str (jsTrim s.inputValue) }] } } }] ∧
    getChatCompletion (FetchOutcome.httpResponse status bodyText (Except.ok data))
      = Except.ok c := by
  constructor
  · simp [sendPhase1, h, chatCompletionRequest]
  · simp [getChatCompletion, hok, hc, htruthy]

/-- Witness for C8: input `"hi"`, a 200 response whose
`choices[0].message.content` is `"hello"`. -/
theorem c8_request_carries_snapshot_witness :
    jsTrim (stateWithInput "hi").inputValue ≠ "" ∧
    respOk 200 = true ∧
    extractAssistantContent
        (Json.obj [("choices",
          Json.arr [Json.obj [("message", Json.obj [("content", Json.str "hello")])]])])
      = some (Json.str "hello") ∧
    (Json.str "hello").falsy = false ∧
    ((sendPhase1 emptyEnv (stateWithInput "hi")).pending = (stateWithInput "hi").pending ++
      [{ id := (stateWithInput "hi").nextId
         request :=
          { url := WORKER_URL
            method := "POST"
            headers := [("Content-Type", "application/json")]
            body := { model := "gpt-4o"
                      messages := (stateWithInput "hi").messages ++
                        [{ role := Role.user,
                           content := Json.str (jsTrim (stateWithInput "hi").inputValue) }] } } }] ∧
     getChatCompletion (FetchOutcome.httpResponse 200 ""
        (Except.ok (Json.obj [("choices",
          Json.arr [Json.obj [("message", Json.obj [("content", Json.str "hello")])]])])))
      = Except.ok (Json.str "hello")) :=
  ⟨by decide, by decide, rfl, rfl,
   c8_request_carries_snapshot emptyEnv (stateWithInput "hi") 200 ""
     (Json.obj [("choices",
        Json.arr [Json.obj [("message", Json.obj [("content", Json.str "hello")])]])])
     (Json.str "hello") (by decide) (by decide) rfl rfl⟩

/-- Claim C10: a 2xx response whose parsed JSON has a falsy
`choices[0].message.content` (missing, `null`, `false`, `0`, or the empty
string) is a failure: `getChatCompletion` throws
`No assistant message found in API response.`, the cycle renders that text as
an error bubble, and no assistant message reaches the transcript. -/
theorem c10_falsy_content_is_failure (w : WindowEnv) (s : SessionState)
    (status : Nat) (bodyText : String) (data : Json)
    (h : jsTrim s.inputValue ≠ "")
    (hok : respOk status = true)
    (hfalsy : jsFalsy (extractAssistantContent data) = true) :
    getChatCompletion (FetchOutcome.httpResponse status bodyText (Except.ok data))
      = Except.error "No assistant message found in API response." ∧
    (handleSend w s (FetchOutcome.httpResponse status bodyText (Except.ok data))).messages
      = s.messages ++ [{ role := Role.user, content := Json.str (jsTrim s.inputValue) }] ∧
    (handleSend w s (FetchOutcome.httpResponse status bodyText (Except.ok data))).chatWindow.getLast?
      = some (Elem.bubble "ai" "Assistant: "
          (Json.str "Error: No assistant message found in API response.")) := by
  have herr : getChatCompletion (FetchOutcome.httpResponse status bodyText (Except.ok data))
      = Except.error "No assistant message found in API response." := by
    cases hce : extractAssistantContent data with
    | none => simp [getChatCompletion, hok, hce]
    | some c =>
      rw [hce] at hfalsy
      simp [jsFalsy] at hfalsy
      simp [getChatCompletion, hok, hce, hfalsy]
  refine ⟨herr, ?_, ?_⟩
  · simp [handleSend, h, settleCall, herr, sendPhase1]
  · have : ("Error: " ++ "No assistant message found in API response." : String)
        = "Error: No assistant message found in API response." := rfl
    simp [handleSend, h, settleCall, herr, addMessage, getLast?_append_singleton, this]

/-- Witness for C10: input `"hi"`, a 200 response whose
`choices[0].message.content` is the empty string. -/
theorem c10_falsy_content_is_failure_witness :
    jsTrim (stateWithInput "hi").inputValue ≠ "" ∧
    respOk 200 = true ∧
    jsFalsy (extractAssistantContent
        (Json.obj [("choices",
          Json.arr [Json.obj [("message", Json.obj [("content", Json.str "")])]])]))
      = true ∧
    (getChatCompletion (FetchOutcome.httpResponse 200 ""
        (Except.ok (Json.obj [("choices",
          Json.arr [Json.obj [("message", Json.obj [("content", Json.str "")])]])])))
      = Except.error "No assistant message found in API response." ∧
     (handleSend emptyEnv (stateWithInput "hi")
        (FetchOutcome.httpResponse 200 ""
          (Except.ok (Json.obj [("choices",
            Json.arr [Json.obj [("message", Json.obj [("content", Json.str "")])]])])))).messages
      = (stateWithInput "hi").messages ++
        [{ role := Role.user, content := Json.str (jsTrim (stateWithInput "hi").inputValue) }] ∧
     (handleSend emptyEnv (stateWithInput "hi")
        (FetchOutcome.httpResponse 200 ""
          (Except.ok (Json.obj [("choices",
            Json.arr [Json.obj [("message", Json.obj [("content", Json.str "")])]])])))).chatWindow.getLast?
      = some (Elem.bubble "ai" "Assistant: "
          (Json.str "Error: No assistant message found in API response."))) :=
  ⟨by decide, by decide, rfl,
   c10_falsy_content_is_failure emptyEnv (stateWithInput "hi") 200 ""
     (Json.obj [("choices",
        Json.arr [Json.obj [("message", Json.obj [("content", Json.str "")])]])])
     (by decide) (by decide) rfl⟩

/-- The synchronous send prefix only ever appends to the transcript. -/
theorem sendPhase1ExtendsMessages (w : WindowEnv) (s : SessionState) :
    ∃ t, (sendPhase1 w s).messages = s.messages ++ t := by
  by_cases h : jsTrim s.inputValue = ""
  · exact ⟨[], by simp [sendPhase1, h]⟩
  · exact ⟨[{ role := Role.user, content := Json.str (jsTrim s.inputValue) }],
      by simp [sendPhase1, h]⟩

/-- Settlement only ever appends to the transcript. -/
theorem settleCallExtendsMessages (s : SessionState) (i : Nat) (outcome : FetchOutcome) :
    ∃ t, (settleCall s i outcome).messages = s.messages ++ t := by
  cases hgc : getChatCompletion outcome with
  | ok reply =>
    exact ⟨[{ role := Role.assistant, content := reply }], by simp [settleCall, hgc]⟩
  | error msg => exact ⟨[], by simp [settleCall, hgc]⟩

/-- Every enabled transition of the session only appends to the transcript. -/
theorem stepExtendsMessages (w : WindowEnv) (s : SessionState) (e : Event)
    (s' : SessionState) (hstep : step w s e = some s') :
    ∃ t, s'.messages = s.messages ++ t := by
  cases e with
  | setInput v =>
    injection hstep with h
    subst h
    exact ⟨[], by simp⟩
  | clickSend =>
    simp only [step] at hstep
    split at hstep
    · exact Option.noConfusion hstep
    · injection hstep with h
      subst h
      exact sendPhase1ExtendsMessages w s
  | pressEnter =>
    injection hstep with h
    subst h
    exact sendPhase1ExtendsMessages w s
  | settle i outcome =>
    simp only [step] at hstep
    split at hstep
    · injection hstep with h
      subst h
      exact settleCallExtendsMessages s i outcome
    · exact Option.noConfusion hstep

/-- Claim C2: in every reachable session state the transcript's first element
is the seed system message, the whole initial transcript is a prefix of the
current one (nothing is removed, mutated, or reordered), and every enabled
transition only appends messages. -/
theorem c2_seed_first_append_only (w : WindowEnv) (s : SessionState)
    (hr : Reachable w s) :
    s.messages.head? = some seedMessage ∧
    (∃ t, s.messages = initialMessages ++ t) ∧
    (∀ e s', step w s e = some s' → ∃ t2, s'.messages = s.messages ++ t2) := by
  have key : ∃ t, s.messages = initialMessages ++ t := by
    induction hr with
    | init => exact ⟨[], by simp [initialState]⟩
    | tr hr2 hstep ih =>
      obtain ⟨t, ht⟩ := ih
      obtain ⟨t2, ht2⟩ := stepExtendsMessages _ _ _ _ hstep
      exact ⟨t ++ t2, by rw [ht2, ht, List.append_assoc]⟩
  obtain ⟨t, ht⟩ := key
  refine ⟨?_, ⟨t, ht⟩, fun e s' hstep => stepExtendsMessages w s e s' hstep⟩
  rw [ht]
  rfl

/-- Witness for C2 at the initial state. -/
theorem c2_seed_first_append_only_witness :
    Reachable emptyEnv initialState ∧
    (initialState.messages.head? = some seedMessage ∧
     (∃ t, initialState.messages = initialMessages ++ t) ∧
     (∀ e s', step emptyEnv initialState e = some s' →
        ∃ t2, s'.messages = initialState.messages ++ t2)) :=
  ⟨Reachable.init, c2_seed_first_append_only emptyEnv initialState Reachable.init⟩

/-- Claim C4 is false on the code: from page load, type `"hi"`, press Enter,
type `"again"` while the first call is still outstanding, press Enter again —
the keydown listener calls `handleSend()` without checking the pending state,
so afterwards two completion calls are outstanding at once. -/
theorem c4_counterexample_two_in_flight :
    pendingCountAfter doubleSendTrace = some 2 := rfl

/-- Claim C4 (amended): while a call is pending, only the button path is
prevented — `sendBtn.disabled` makes a click impossible, and a non-empty
send leaves the button disabled — but the Enter-keydown path still invokes
`handleSend` unconditionally, so a second request can enter flight. -/
theorem c4_amended_only_button_locked (w : WindowEnv) (s : SessionState)
    (hd : s.sendBtnDisabled = true)
    (h : jsTrim s.inputValue ≠ "") :
    step w s Event.clickSend = none ∧
    step w s Event.pressEnter = some (sendPhase1 w s) ∧
    (sendPhase1 w s).sendBtnDisabled = true := by
  exact ⟨by simp [step, hd], rfl, by simp [sendPhase1, h]⟩

/-- Witness for the amended C4: button disabled, `"hi"` typed into the input
while a call is pending. -/
theorem c4_amended_only_button_locked_witness :
    ({ initialState with sendBtnDisabled := true, inputValue := "hi" } : SessionState).sendBtnDisabled = true ∧
    jsTrim ({ initialState with sendBtnDisabled := true, inputValue := "hi" } : SessionState).inputValue ≠ "" ∧
    (step emptyEnv { initialState with sendBtnDisabled := true, inputValue := "hi" } Event.clickSend = none ∧
     step emptyEnv { initialState with sendBtnDisabled := true, inputValue := "hi" } Event.pressEnter
       = some (sendPhase1 emptyEnv { initialState with sendBtnDisabled := true, inputValue := "hi" }) ∧
     (sendPhase1 emptyEnv { initialState with sendBtnDisabled := true, inputValue := "hi" }).sendBtnDisabled = true) :=
  ⟨rfl, by decide,
   c4_amended_only_button_locked emptyEnv
     { initialState with sendBtnDisabled := true, inputValue := "hi" } rfl (by decide)⟩
